import Mathlib

/-!
Verification development for the `emerge` dnf plugin (`emerge.py`).

The program resolves requested binary package names to source packages,
groups them (`EmergeCommand._run`), builds each source package on its own
thread (`BuildThread`, joined in `EmergeCommand._build`), rewrites a mock
config template per build, matches produced rpm file names against the
request (`EmergeCommand._is_wanted_file`), installs matches, and cleans up
its work directory (`EmergeCommand._rmworkdir`).

The shallow embedding below models Python strings as Lean `String`s
operated on through their underlying character lists (so that every
operation is structurally recursive and kernel-evaluable), Python
exceptions as an explicit `Exc` error type threaded through `Except`, and
the side effects of a run (directory creation, deletion, installation) as
explicit fields of a `RunState` record.
-/

namespace Emerge

/-- Python exception values that the plugin can raise or catch.
`dnfError` is `dnf.exceptions.Error`, `markingError` is
`dnf.exceptions.MarkingError`, `packagesNotAvailableError` is
`dnf.exceptions.PackagesNotAvailableError`; `nameError` and `indexError`
are the Python builtins `NameError` and `IndexError`. -/
inductive Exc where
  | dnfError (msg : String)
  | markingError (pkg : String)
  | packagesNotAvailableError (msg : String) (pkgs : List String)
  | nameError (n : String)
  | indexError
  deriving DecidableEq, Repr

/-- Python `suff in s`-style suffix test (`str.endswith`), computed on the
character list so it reduces structurally. -/
def strEndsWith (s suff : String) : Bool :=
  suff.data.isSuffixOf s.data

/-- Python `str.startswith`, computed on the character list. -/
def strStartsWith (s pre : String) : Bool :=
  pre.data.isPrefixOf s.data

/-- Python slicing `s[n:]` (drop the first `n` characters). -/
def strDrop (s : String) (n : Nat) : String :=
  String.mk (s.data.drop n)

/-- Python `sub in s` membership test for a (non-empty) substring,
computed on character lists. -/
def hasInfix (needle : List Char) : List Char → Bool
  | [] => needle.isEmpty
  | c :: rest => needle.isPrefixOf (c :: rest) || hasInfix needle rest

/-- Python `s.split(sep)` specialised to the one separator the program
uses, the dash: `"a-b".split` gives `["a", "b"]`, `"".split` gives
`[""]`, `"-b".split` gives `["", "b"]`. -/
def splitDash : List Char → List (List Char)
  | [] => [[]]
  | c :: rest =>
    if c = Char.ofNat 45 then
      [] :: splitDash rest
    else
      match splitDash rest with
      | [] => [[c]]
      | seg :: segs => (c :: seg) :: segs

/-- `EmergeCommand._is_wanted_file(fname, haystack)` (emerge.py lines
129-142), translated clause by clause.  Python raises `IndexError` when
`rest[0]` is the empty string and `rest[0][0]` is evaluated (and, were
`rest` ever empty, when `rest[0]` is evaluated); the embedding returns
`Except.error Exc.indexError` at exactly those points.  The haystack (a
Python set) is modelled as a list giving its iteration order. -/
def isWantedFile (fname : String) : List String → Except Exc Bool
  | [] => .ok false
  | needle :: hs =>
    if strEndsWith fname ".src.rpm" then isWantedFile fname hs
    else if !(strStartsWith fname (needle ++ "-")) then isWantedFile fname hs
    else
      let rest := splitDash ((strDrop fname (needle.length + 1)).data)
      if rest.length > 2 then isWantedFile fname hs
      else
        match rest with
        | [] => .error .indexError
        | seg :: _ =>
          match seg with
          | [] => .error .indexError
          | c :: _ => if c.isDigit then .ok true else isWantedFile fname hs

/-- The substring Python tests with `"config_opts['root']" in line`
(emerge.py line 48). -/
def rootPat : String := "config_opts[\x27root\x27]"

/-- Whether a template line contains the root-binding pattern. -/
def containsRootOpt (line : String) : Bool :=
  hasInfix rootPat.data line.data

/-- The `config_opts['basedir'] = '<workdir>/_mockroots'` line written
first into every generated config (emerge.py line 46);
`os.path.join(workdir, '_mockroots')` for a `workdir` without a trailing
slash is `workdir ++ "/_mockroots"`. -/
def basedirLine (workdir : String) : String :=
  "config_opts[\x27basedir\x27] = \x27" ++ workdir ++ "/_mockroots" ++ "\x27\n"

/-- The replacement root-binding line `config_opts['root'] =
'emerge-<pkg>'` (emerge.py line 49). -/
def rootLine (pkg : String) : String :=
  "config_opts[\x27root\x27] = \x27emerge-" ++ pkg ++ "\x27\n"

/-- The mock-config generation loop of `BuildThread._run` (emerge.py
lines 44-51): the basedir line is written first, then each template line
is copied verbatim unless it contains `rootPat`, in which case the
root-binding line for the package is written instead.  `template` is the
list of template lines as returned by `readlines()` (trailing newlines
included). -/
def generateMockConfig (template : List String) (workdir pkg : String) : List String :=
  basedirLine workdir ::
    template.map (fun l => if containsRootOpt l then rootLine pkg else l)

/-- Number of output positions whose template line matched the
root-binding pattern and was therefore rewritten. -/
def replacedCount (template : List String) (workdir pkg : String) : Nat :=
  (template.zip ((generateMockConfig template workdir pkg).drop 1)).countP
    (fun q => containsRootOpt q.1)

/-- A resolved candidate returned by the dnf sack query: the binary
package `name` and the `source_name` of the source package producing
it. -/
structure Candidate where
  name : String
  source_name : String
  deriving DecidableEq, Repr

/-- Python `set.add` on a set modelled as a duplicate-free list in
insertion order. -/
def setAdd (s : List String) (x : String) : List String :=
  if x ∈ s then s else s ++ [x]

/-- One step of the grouping loop of `EmergeCommand._run` (emerge.py
lines 99-103): the dict `to_build_install` is modelled as an association
list in key-insertion order; an existing key gets the name added to its
set, a new key is appended with a singleton set. -/
def addPkg : List (String × List String) → Candidate → List (String × List String)
  | [], p => [(p.source_name, [p.name])]
  | (k, v) :: rest, p =>
    if k = p.source_name then (k, setAdd v p.name) :: rest
    else (k, v) :: addPkg rest p

/-- The grouping loop itself: fold the resolved candidates into the
`to_build_install` dict. -/
def toBuildInstall (pkgs : List Candidate) : List (String × List String) :=
  pkgs.foldl addPkg []

/-- Dict lookup with the empty set as default for absent keys (the
grouping loop never stores an empty set, so the default is
unambiguous). -/
def lookupGroup : List (String × List String) → String → List String
  | [], _ => []
  | (k, v) :: rest, s => if k = s then v else lookupGroup rest s

/-- The join loop of `EmergeCommand._build` (emerge.py lines 173-176):
threads are joined in start order; as soon as a joined thread holds a
captured exception it is re-raised, without joining the remaining
threads.  The input is the per-thread captured outcome (`none` =
finished clean, `some e` = `_my_exception` is `e`) in start order; the
result is the control outcome paired with the number of threads actually
joined before control returns. -/
def joinLoop : List (Option Exc) → Except Exc Unit × Nat
  | [] => (.ok (), 0)
  | some e :: _ => (.error e, 1)
  | none :: rest => ((joinLoop rest).1, (joinLoop rest).2 + 1)

/-- `ErrorThread.run` (emerge.py lines 17-21): the thread body runs and
any exception is captured verbatim into `_my_exception`; a clean run
leaves it `None`. -/
def errorThreadRun (body : Except Exc Unit) : Option Exc :=
  match body with
  | .ok _ => none
  | .error e => some e

/-- `BuildThread._run` (emerge.py lines 33-55) as a sequence of its
three failable stages: the `fedpkg clone` fetch, the mock-config
generation, and the `fedpkg mockbuild` invocation.  Each stage either
succeeds or raises; the first raise aborts the body with that exact
exception. -/
def buildThreadRun (fetch config build : Except Exc Unit) : Except Exc Unit := do
  fetch
  config
  build

/-- Observable events of `EmergeCommand._build` (emerge.py lines
157-176) in program order. -/
inductive BuildEvent where
  | mkdir (path : String)
  | startWorker (src : String)
  | joinWorker (src : String)
  deriving DecidableEq, Repr

/-- The event trace of `EmergeCommand._build`: with `--skip-build` the
function returns at once (emerge.py lines 158-160), so nothing at all
happens; otherwise the two `os.makedirs` calls come first, then every
worker is started, then every worker is joined. -/
def buildTrace (skipBuild : Bool) (workdir : String) (sources : List String) :
    List BuildEvent :=
  if skipBuild then []
  else
    BuildEvent.mkdir (workdir ++ "/_mockconfig") ::
      BuildEvent.mkdir (workdir ++ "/_mockroots") ::
        (sources.map BuildEvent.startWorker ++ sources.map BuildEvent.joinWorker)

/-- The command-line options of the `emerge` subcommand (emerge.py lines
70-76). -/
structure Opts where
  package : List String
  workdir : Option String
  skip_build : Bool
  skip_clean : Bool
  deriving DecidableEq, Repr

/-- The external collaborators of one run, fixed up front: the resolver
result for the whole request, the name `tempfile` would hand out for the
generated work directory, the per-source-package build-thread outcome,
the rpm files (full path and basename) found by the glob under each
source package's results tree, and which file paths the installer
accepts (`False` = `package_install` raises `MarkingError`). -/
structure Ext where
  resolved : List Candidate
  tmpName : String
  buildOutcome : String → Option Exc
  foundFiles : String → List (String × String)
  installAccepts : String → Bool

/-- The observable state a run accumulates: the `self.workdir` field,
the generated temporary directory (if one was allocated), every
`os.makedirs` and `shutil.rmtree` call in order, the file paths marked
for installation, and the collected rejects `err_pkgs`. -/
structure RunState where
  workdirField : Option String
  generatedTmp : Option String
  dirsMade : List String
  removedDirs : List String
  installed : List String
  errPkgs : List String
  deriving DecidableEq, Repr

/-- The state at the start of a run: `EmergeCommand.workdir` is `None`
and nothing has happened yet. -/
def initState : RunState :=
  { workdirField := none, generatedTmp := none, dirsMade := [],
    removedDirs := [], installed := [], errPkgs := [] }

/-- `EmergeCommand._rmworkdir` (emerge.py lines 81-83): remove the work
directory only when `self.workdir` is set, `--workdir` was not supplied,
and `--skip-clean` was not supplied. -/
def rmworkdir (o : Opts) (s : RunState) : RunState :=
  match s.workdirField with
  | none => s
  | some w =>
    if o.workdir = none && !o.skip_clean then
      { s with removedDirs := s.removedDirs ++ [w] }
    else s

/-- The effective work directory (emerge.py lines 107-110): the
caller-supplied one if given, otherwise the `tempfile` generated one. -/
def workdirOf (o : Opts) (ext : Ext) : String :=
  match o.workdir with
  | some d => d
  | none => ext.tmpName

/-- The inner loop of `EmergeCommand._find_packages` (emerge.py lines
149-152) over the globbed files of one source package: a file whose
basename `_is_wanted_file` accepts contributes its full path; an
exception escaping `_is_wanted_file` aborts the scan. -/
def findInSource (binaries : List String) :
    List (String × String) → Except Exc (List String)
  | [] => .ok []
  | (fpath, fname) :: rest =>
    match isWantedFile fname binaries with
    | .error e => .error e
    | .ok true => (findInSource binaries rest).map (fun l => fpath :: l)
    | .ok false => findInSource binaries rest

/-- `EmergeCommand._find_packages` (emerge.py lines 144-155): iterate
the groups in dict order, collecting matched paths in glob order. -/
def findPackages (ext : Ext) :
    List (String × List String) → Except Exc (List String)
  | [] => .ok []
  | (source, binaries) :: rest => do
    let here ← findInSource binaries (ext.foundFiles source)
    let more ← findPackages ext rest
    pure (here ++ more)

/-- The install loop of `EmergeCommand._run` (emerge.py lines 117-123):
each matched file is handed to `package_install`; a `MarkingError` is
caught and the package collected into `err_pkgs` instead of aborting. -/
def installLoop (ext : Ext) (files : List String) (s : RunState) : RunState :=
  files.foldl
    (fun st f =>
      if ext.installAccepts f then { st with installed := st.installed ++ [f] }
      else { st with errPkgs := st.errPkgs ++ [f] })
    s

/-- The final conditional of `EmergeCommand._run` (emerge.py line 125):
`if len(err_pkgs) != 0 and strict:` — the name `strict` is unbound in
the module.  Python evaluates `len(err_pkgs) != 0` first; when it is
true, evaluating the free name `strict` raises `NameError`, so the
`raise dnf.exceptions.PackagesNotAvailableError(...)` branch on lines
126-127 is unreachable, and when `err_pkgs` is empty the conditional is
skipped and the run completes. -/
def strictCheck (errPkgs : List String) : Except Exc Unit :=
  if errPkgs.length != 0 then .error (.nameError "strict") else .ok ()

/-- The tail of `EmergeCommand._run` after a successful build phase:
artifact matching, then the install loop, then the broken strict
conditional. -/
def afterBuild (ext : Ext) (group : List (String × List String))
    (s : RunState) : Except Exc Unit × RunState :=
  match findPackages ext group with
  | .error e => (.error e, s)
  | .ok files =>
    let s2 := installLoop ext files s
    (strictCheck s2.errPkgs, s2)

/-- The run state right after the work directory is chosen (emerge.py
lines 107-110): `self.workdir` is set; a generated temporary directory
is on record exactly when the caller supplied no `--workdir`. -/
def startState (o : Opts) (ext : Ext) : RunState :=
  { initState with
      workdirField := some (workdirOf o ext),
      generatedTmp := if o.workdir = none then some ext.tmpName else none }

/-- The two `os.makedirs` calls of `_build` (emerge.py lines 162-163)
recorded on the state. -/
def withDirs (o : Opts) (ext : Ext) (s : RunState) : RunState :=
  { s with
      dirsMade := s.dirsMade
        ++ [workdirOf o ext ++ "/_mockconfig",
            workdirOf o ext ++ "/_mockroots"] }

/-- `EmergeCommand._run` (emerge.py lines 92-127): fail with
`dnf.exceptions.Error('no package matched')` when the resolver returned
nothing (before any filesystem work); otherwise group, pick the work
directory (recording it in `self.workdir`), run `_build` (which under
`--skip-build` returns at once and otherwise makes the two
subdirectories and runs the join loop over the build threads in
dict-key order), then match, install and run the strict conditional. -/
def runBody (o : Opts) (ext : Ext) : Except Exc Unit × RunState :=
  if ext.resolved.isEmpty then
    (.error (.dnfError "no package matched"), initState)
  else if o.skip_build then
    afterBuild ext (toBuildInstall ext.resolved) (startState o ext)
  else
    match (joinLoop (((toBuildInstall ext.resolved).map Prod.fst).map
        ext.buildOutcome)).1 with
    | .error e => (.error e, withDirs o ext (startState o ext))
    | .ok _ =>
      afterBuild ext (toBuildInstall ext.resolved)
        (withDirs o ext (startState o ext))

/-- `EmergeCommand.run` (emerge.py lines 85-90): on any exception from
`_run`, remove the work directory and re-raise the same exception. -/
def commandRun (o : Opts) (ext : Ext) : Except Exc Unit × RunState :=
  match runBody o ext with
  | (.ok _, s) => (.ok (), s)
  | (.error e, s) => (.error e, rmworkdir o s)

/-- The full lifecycle of a successful run: dnf calls
`EmergeCommand.run_transaction` (emerge.py lines 78-79) after the
transaction, which removes the work directory; on failure `run` already
cleaned up. -/
def fullRun (o : Opts) (ext : Ext) : Except Exc Unit × RunState :=
  match commandRun o ext with
  | (.ok _, s) => (.ok (), rmworkdir o s)
  | r => r

/-- Concrete run input: the path of a produced rpm that the installer
accepts. -/
def c2path1 : String :=
  "/work/foo/results_foo/f40/x86_64/foo-1.0-1.fc40.x86_64.rpm"

/-- Concrete run input: the path of a produced rpm that the installer
rejects with a marking error. -/
def c2path2 : String :=
  "/work/foo/results_foo/f40/x86_64/foo-libs-1.0-1.fc40.x86_64.rpm"

/-- Concrete options: a caller-supplied work directory with builds
skipped (note the plugin exposes no strict option at all; line 125
references the free name `strict`). -/
def c2opts : Opts :=
  { package := ["foo", "foo-libs"], workdir := some "/work",
    skip_build := true, skip_clean := false }

/-- Concrete collaborators: `foo` and `foo-libs` resolve to source
package `foo`, whose results tree holds the two rpms above; the
installer accepts the first and rejects the second. -/
def c2ext : Ext :=
  { resolved := [Candidate.mk "foo" "foo", Candidate.mk "foo-libs" "foo"],
    tmpName := "/tmp/dnf-emerge-unused",
    buildOutcome := fun _ => none,
    foundFiles := fun s =>
      if s = "foo" then
        [(c2path1, "foo-1.0-1.fc40.x86_64.rpm"),
         (c2path2, "foo-libs-1.0-1.fc40.x86_64.rpm")]
      else [],
    installAccepts := fun p => p == c2path1 }

/-- Concrete options for a run with a generated work directory. -/
def c6opts : Opts :=
  { package := ["a"], workdir := none, skip_build := true,
    skip_clean := false }

/-- Concrete collaborators for a run that resolves one candidate, finds
no artifacts and succeeds. -/
def c6ext : Ext :=
  { resolved := [Candidate.mk "a" "a"],
    tmpName := "/tmp/dnf-emerge-abc",
    buildOutcome := fun _ => none,
    foundFiles := fun _ => [],
    installAccepts := fun _ => true }

/-- Concrete options for a request that resolves to nothing. -/
def c9opts : Opts :=
  { package := ["nosuch"], workdir := none, skip_build := false,
    skip_clean := false }

/-- Concrete collaborators returning zero candidates for the whole
request. -/
def c9ext : Ext :=
  { resolved := [],
    tmpName := "/tmp/dnf-emerge-zzz",
    buildOutcome := fun _ => none,
    foundFiles := fun _ => [],
    installAccepts := fun _ => true }

end Emerge

namespace Emerge

/-- A file name ending in `.src.rpm` makes every loop iteration of
`_is_wanted_file` `continue`, so the function returns `False` whatever
the requested names are. -/
theorem isWantedFile_of_srcRpm (fname : String) (hs : List String)
    (h : strEndsWith fname ".src.rpm" = true) :
    isWantedFile fname hs = Except.ok false := by
  induction hs with
  | nil => rfl
  | cons n tl ih =>
    simp only [isWantedFile, h, if_true]
    exact ih

/-- C3: for requested names `{"foo"}`, the matcher accepts
`foo-1.0-1.fc40.x86_64.rpm`, rejects `foo-bar-1.0-1.fc40.x86_64.rpm`,
and any file name ending in `.src.rpm` is rejected whatever the
requested-name set is. -/
theorem C3_matcher_cases :
    isWantedFile "foo-1.0-1.fc40.x86_64.rpm" ["foo"] = Except.ok true
    ∧ isWantedFile "foo-bar-1.0-1.fc40.x86_64.rpm" ["foo"] = Except.ok false
    ∧ ∀ (fname : String) (hs : List String),
        strEndsWith fname ".src.rpm" = true →
        isWantedFile fname hs = Except.ok false :=
  ⟨rfl, rfl, fun fname hs h => isWantedFile_of_srcRpm fname hs h⟩

/-- Witness for C3: the universally quantified clause evaluated at the
concrete source rpm `foo-1.0-1.fc40.src.rpm` with requested set
`{"foo"}`. -/
theorem C3_matcher_cases_witness :
    strEndsWith "foo-1.0-1.fc40.src.rpm" ".src.rpm" = true
    ∧ isWantedFile "foo-1.0-1.fc40.src.rpm" ["foo"] = Except.ok false :=
  ⟨rfl, C3_matcher_cases.2.2 "foo-1.0-1.fc40.src.rpm" ["foo"] rfl⟩

/-- C10: the matching predicate is not total.  For the file name
`foo--1.rpm` and requested set `{"foo"}`, the segment after the matched
`foo-` prefix is empty, so `rest[0][0]` raises `IndexError` instead of
the loop returning a boolean. -/
theorem C10_matcher_indexError :
    isWantedFile "foo--1.rpm" ["foo"] = Except.error Exc.indexError := rfl

/-- C1 counterexample: with two workers in start order, the first
holding a captured failure and the second finishing clean, the join loop
of `_build` raises after joining only the first worker: the number of
joined workers at the raise is 1 while the group has 2 workers, so the
failure is not surfaced "only after every one of the N workers has
reached a terminal state" — the second worker is never joined and may
still be executing. -/
theorem C1_counterexample :
    joinLoop [some (Exc.dnfError "boom"), none]
      = (Except.error (Exc.dnfError "boom"), 1)
    ∧ ([some (Exc.dnfError "boom"), none] : List (Option Exc)).length = 2 :=
  ⟨rfl, rfl⟩

/-- C1 amended: the orchestrator joins workers in start order and raises
the first captured failure immediately upon joining the first failed
worker; at that point it has joined exactly the clean prefix plus that
one failed worker (so later workers may still be running).  Only when
every worker finished clean does control return after joining all N
workers. -/
theorem C1_join_until_first_failed :
    ∀ (outcomes : List (Option Exc)),
      (outcomes.filterMap id = [] →
        joinLoop outcomes = (Except.ok (), outcomes.length))
      ∧ ∀ (e : Exc) (rest : List Exc), outcomes.filterMap id = e :: rest →
          joinLoop outcomes
            = (Except.error e,
               (outcomes.takeWhile fun o => o.isNone).length + 1) := by
  intro outcomes
  induction outcomes with
  | nil =>
    refine ⟨fun _ => rfl, fun e rest h => ?_⟩
    simp at h
  | cons hd tl ih =>
    cases hd with
    | some e0 =>
      refine ⟨fun h => ?_, fun e rest h => ?_⟩
      · simp at h
      · simp only [List.filterMap_cons, id] at h
        cases h
        rfl
    | none =>
      refine ⟨fun h => ?_, fun e rest h => ?_⟩
      · have h2 : tl.filterMap id = [] := by simpa using h
        have hj := ih.1 h2
        simp [joinLoop, hj]
      · have h2 : tl.filterMap id = e :: rest := by simpa using h
        have hj := ih.2 e rest h2
        simp [joinLoop, hj, List.takeWhile]

/-- Witness for C1 amended: a clean first worker and a failed second
worker; both get joined and the second's failure is raised. -/
theorem C1_join_until_first_failed_witness :
    joinLoop [none, some (Exc.dnfError "x")]
      = (Except.error (Exc.dnfError "x"), 2) :=
  (C1_join_until_first_failed [none, some (Exc.dnfError "x")]).2
    (Exc.dnfError "x") [] rfl

/-- The control outcome of the join loop is the first captured exception
in start order, or clean completion when there is none. -/
theorem joinLoop_fst_head (os : List (Option Exc)) :
    (joinLoop os).1
      = ((os.filterMap id).head?.elim (Except.ok ()) fun e => Except.error e) := by
  induction os with
  | nil => rfl
  | cons hd tl ih =>
    cases hd with
    | some e => rfl
    | none => simpa [joinLoop, List.filterMap_cons] using ih

/-- C7: a worker failing at any of its three stages (fetch, configure,
build) has the underlying error captured verbatim by `ErrorThread.run`,
and the join loop raises exactly the first captured error in worker
start order, un-rewrapped — the raised value is the identical captured
value. -/
theorem C7_first_failure_verbatim :
    (∀ (steps : List (Except Exc Unit × Except Exc Unit × Except Exc Unit)),
      (joinLoop
          (steps.map fun t => errorThreadRun (buildThreadRun t.1 t.2.1 t.2.2))).1
        = (((steps.map fun t =>
              errorThreadRun (buildThreadRun t.1 t.2.1 t.2.2)).filterMap
                id).head?.elim (Except.ok ()) fun e => Except.error e))
    ∧ (∀ (e : Exc) (c b : Except Exc Unit),
        errorThreadRun (buildThreadRun (Except.error e) c b) = some e)
    ∧ (∀ (e : Exc) (b : Except Exc Unit),
        errorThreadRun (buildThreadRun (Except.ok ()) (Except.error e) b) = some e)
    ∧ (∀ (e : Exc),
        errorThreadRun
            (buildThreadRun (Except.ok ()) (Except.ok ()) (Except.error e))
          = some e) :=
  ⟨fun _ => joinLoop_fst_head _, fun _ _ _ => rfl, fun _ _ => rfl, fun _ => rfl⟩

/-- C4 counterexample: with `--skip-build` requested, `_build` returns
before its `os.makedirs` calls, so neither the sandbox-config nor the
sandbox-root subdirectory is created — its event trace is empty, while
without `--skip-build` the mkdir event is present. -/
theorem C4_counterexample :
    buildTrace true "w" ["p"] = []
    ∧ decide (BuildEvent.mkdir ("w" ++ "/_mockconfig") ∈ buildTrace true "w" ["p"])
        = false
    ∧ decide (BuildEvent.mkdir ("w" ++ "/_mockconfig") ∈ buildTrace false "w" ["p"])
        = true := by
  decide

/-- C4 amended: `_build` checks the skip-build request first: when it is
set the step does nothing at all (no directories created, no workers
started); otherwise the sandbox-config and sandbox-root subdirectories
are created first, before any worker starts. -/
theorem C4_skip_checked_first :
    ∀ (w : String) (srcs : List String),
      buildTrace true w srcs = []
      ∧ (buildTrace false w srcs).take 2
          = [BuildEvent.mkdir (w ++ "/_mockconfig"),
             BuildEvent.mkdir (w ++ "/_mockroots")] :=
  fun _ _ => ⟨rfl, rfl⟩

/-- Template lines the rewrite predicate rejects survive a map that is
the identity on them, as a sublist (so verbatim and in order). -/
theorem filter_sublist_map (f : String → String) (p : String → Bool)
    (hp : ∀ l, p l = false → f l = l) :
    ∀ ts : List String, (ts.filter fun l => !(p l)).Sublist (ts.map f) := by
  intro ts
  induction ts with
  | nil => simp
  | cons a tl ih =>
    cases hpa : p a with
    | false =>
      simp only [List.filter_cons, hpa, Bool.not_false, if_true, List.map_cons,
        hp a hpa]
      exact List.Sublist.cons₂ a ih
    | true =>
      simp only [List.filter_cons, hpa, Bool.not_true, if_false, List.map_cons]
      exact List.Sublist.cons (f a) ih

/-- Every pair of a list zipped with its own map relates by the mapped
function. -/
theorem mem_zip_map_eq (f : String → String) :
    ∀ (ts : List String) (q : String × String),
      q ∈ ts.zip (ts.map f) → q.2 = f q.1 := by
  intro ts
  induction ts with
  | nil => intro q h; simp at h
  | cons a tl ih =>
    intro q h
    simp only [List.map_cons, List.zip_cons_cons, List.mem_cons] at h
    cases h with
    | inl h => subst h; rfl
    | inr h => exact ih q h

/-- Counting a predicate on the first components of a list zipped with
its own map counts the predicate on the list. -/
theorem countP_zip_map (f : String → String) (p0 : String → Bool) :
    ∀ ts : List String,
      (ts.zip (ts.map f)).countP (fun q => p0 q.1) = ts.countP p0 := by
  intro ts
  induction ts with
  | nil => rfl
  | cons a tl ih => simp [List.zip_cons_cons, List.countP_cons, ih]

/-- C5 counterexample: for a template with no line containing the
root-binding pattern, the generated config copies the sole template line
verbatim and replaces zero lines, not exactly one, so "exactly one line
is replaced" fails for this template file. -/
theorem C5_counterexample :
    replacedCount ["hello\n"] "w" "p" = 0
    ∧ generateMockConfig ["hello\n"] "w" "p" = [basedirLine "w", "hello\n"] :=
  ⟨rfl, rfl⟩

/-- C5 amended: every template line not containing the root-binding
pattern appears in the output verbatim, at its position and hence in the
same relative order; every template line containing the pattern — which
may be zero lines or several, not always exactly one — is replaced by
the root-binding line derived from the source package; the number of
replaced lines equals the number of template lines containing the
pattern. -/
theorem C5_rewrite_lines :
    ∀ (ts : List String) (w p : String),
      ((ts.filter fun l => !(containsRootOpt l)).Sublist
          (generateMockConfig ts w p))
      ∧ (∀ q ∈ ts.zip ((generateMockConfig ts w p).drop 1),
          (containsRootOpt q.1 = false → q.2 = q.1)
          ∧ (containsRootOpt q.1 = true → q.2 = rootLine p))
      ∧ replacedCount ts w p = ts.countP fun l => containsRootOpt l := by
  intro ts w p
  refine ⟨?_, ?_, ?_⟩
  · exact List.Sublist.cons (basedirLine w)
      (filter_sublist_map _ containsRootOpt (fun l hl => by simp [hl]) ts)
  · intro q hq
    have h2 : q.2 = (if containsRootOpt q.1 then rootLine p else q.1) :=
      mem_zip_map_eq (fun l => if containsRootOpt l then rootLine p else l)
        ts q hq
    constructor
    · intro hc; rw [h2]; simp [hc]
    · intro hc; rw [h2]; simp [hc]
  · exact countP_zip_map _ _ ts

/-- Witness for C5 amended: a one-line template whose line does not
contain the pattern; the pair of that line with its output line is in
the zip and the output line is the template line verbatim. -/
theorem C5_rewrite_lines_witness :
    (("hello\n", "hello\n")
        ∈ (["hello\n"].zip ((generateMockConfig ["hello\n"] "w" "p").drop 1)))
    ∧ ("hello\n" : String) = "hello\n" :=
  ⟨by decide,
   ((C5_rewrite_lines ["hello\n"] "w" "p").2.1 ("hello\n", "hello\n")
       (by decide)).1 rfl⟩

/-- Looking a key up after one grouping step: the step extends exactly
the set of the candidate's source package with its binary name. -/
theorem lookupGroup_addPkg (m : List (String × List String)) (p : Candidate)
    (s : String) :
    lookupGroup (addPkg m p) s
      = if p.source_name = s then setAdd (lookupGroup m s) p.name
        else lookupGroup m s := by
  induction m with
  | nil =>
    by_cases h : p.source_name = s
    · simp [addPkg, lookupGroup, h, setAdd]
    · simp [addPkg, lookupGroup, h]
  | cons kv rest ih =>
    obtain ⟨k, v⟩ := kv
    by_cases hk : k = p.source_name
    · subst hk
      by_cases hs : p.source_name = s
      · simp [addPkg, lookupGroup, hs]
      · simp [addPkg, lookupGroup, hs]
    · simp only [addPkg, if_neg hk]
      by_cases hs : k = s
      · have hps : ¬(p.source_name = s) := fun h => hk (hs.trans h.symm)
        simp [lookupGroup, hs, hps]
      · simp [lookupGroup, hs, ih]

/-- As a finite set, Python `set.add` is `insert`. -/
theorem setAdd_toFinset (l : List String) (x : String) :
    (setAdd l x).toFinset = insert x l.toFinset := by
  by_cases h : x ∈ l
  · simp only [setAdd, if_pos h]
    ext a
    simp only [List.mem_toFinset, Finset.mem_insert]
    exact ⟨fun ha => Or.inr ha, fun ha => ha.elim (fun hax => hax ▸ h) id⟩
  · simp only [setAdd, if_neg h]
    ext a
    simp [or_comm]

/-- The set of binary names grouped under a source name, after folding
any candidate list onto any starting dict: it is the starting dict's set
united with the names of the candidates resolving to that source. -/
theorem lookupGroup_foldl (pkgs : List Candidate) :
    ∀ (m : List (String × List String)) (s : String),
      (lookupGroup (pkgs.foldl addPkg m) s).toFinset
        = ((pkgs.filter fun p => p.source_name = s).map Candidate.name).toFinset
            ∪ (lookupGroup m s).toFinset := by
  induction pkgs with
  | nil => intro m s; simp
  | cons p ps ih =>
    intro m s
    simp only [List.foldl_cons]
    rw [ih (addPkg m p) s, lookupGroup_addPkg]
    by_cases hs : p.source_name = s
    · rw [if_pos hs, setAdd_toFinset]
      simp [List.filter_cons, hs, Finset.union_insert, Finset.insert_union]
    · rw [if_neg hs]
      simp [List.filter_cons, hs]

/-- Characterisation of the grouping: the set stored under a source name
is exactly the set of binary names of the candidates resolving to that
source. -/
theorem lookupGroup_toBuildInstall (pkgs : List Candidate) (s : String) :
    (lookupGroup (toBuildInstall pkgs) s).toFinset
      = ((pkgs.filter fun p => p.source_name = s).map Candidate.name).toFinset := by
  have h := lookupGroup_foldl pkgs [] s
  simpa [toBuildInstall, lookupGroup] using h

/-- C8: the BuildGroup mapping is independent of the candidates' order —
for permuted candidate lists every source name maps to the same set of
binary names — and a duplicated candidate collapses into the same set
element. -/
theorem C8_group_order_independent :
    (∀ (l₁ l₂ : List Candidate), l₁.Perm l₂ →
      ∀ s : String,
        (lookupGroup (toBuildInstall l₁) s).toFinset
          = (lookupGroup (toBuildInstall l₂) s).toFinset)
    ∧ ∀ (p : Candidate) (l : List Candidate) (s : String),
        (lookupGroup (toBuildInstall (p :: p :: l)) s).toFinset
          = (lookupGroup (toBuildInstall (p :: l)) s).toFinset := by
  constructor
  · intro l₁ l₂ hperm s
    rw [lookupGroup_toBuildInstall, lookupGroup_toBuildInstall]
    ext a
    simp only [List.mem_toFinset]
    exact ((hperm.filter _).map Candidate.name).mem_iff
  · intro p l s
    rw [lookupGroup_toBuildInstall, lookupGroup_toBuildInstall]
    by_cases hs : p.source_name = s
    · simp [List.filter_cons, hs]
    · simp [List.filter_cons, hs]

/-- Witness for C8: the two-candidate example of the spec, in both
orders, resolving to the same source package. -/
theorem C8_group_order_independent_witness :
    (lookupGroup (toBuildInstall
        [Candidate.mk "a" "s", Candidate.mk "b" "s"]) "s").toFinset
      = (lookupGroup (toBuildInstall
        [Candidate.mk "b" "s", Candidate.mk "a" "s"]) "s").toFinset :=
  C8_group_order_independent.1 _ _
    (List.Perm.swap (Candidate.mk "b" "s") (Candidate.mk "a" "s") []) "s"

/-- The install loop only touches the installed and rejected lists. -/
theorem installLoop_fields (ext : Ext) (files : List String) :
    ∀ s : RunState,
      (installLoop ext files s).workdirField = s.workdirField
      ∧ (installLoop ext files s).generatedTmp = s.generatedTmp
      ∧ (installLoop ext files s).removedDirs = s.removedDirs := by
  induction files with
  | nil => intro s; exact ⟨rfl, rfl, rfl⟩
  | cons f fs ih =>
    intro s
    cases hacc : ext.installAccepts f with
    | true =>
      have h := ih { s with installed := s.installed ++ [f] }
      simpa [installLoop, List.foldl_cons, hacc] using h
    | false =>
      have h := ih { s with errPkgs := s.errPkgs ++ [f] }
      simpa [installLoop, List.foldl_cons, hacc] using h

/-- The post-build phase (matching, installing, strict conditional)
never touches the work-directory bookkeeping. -/
theorem afterBuild_fields (ext : Ext) (g : List (String × List String))
    (s : RunState) :
    (afterBuild ext g s).2.workdirField = s.workdirField
    ∧ (afterBuild ext g s).2.generatedTmp = s.generatedTmp
    ∧ (afterBuild ext g s).2.removedDirs = s.removedDirs := by
  cases hf : findPackages ext g with
  | error e => simp [afterBuild, hf]
  | ok files =>
    simp only [afterBuild, hf]
    exact installLoop_fields ext files s

/-- Whatever path a run takes, the final state is the body's state with
`_rmworkdir` applied exactly once: on failure by the wrapper in `run`,
on success by `run_transaction`. -/
theorem fullRun_snd (o : Opts) (ext : Ext) :
    (fullRun o ext).2 = rmworkdir o (runBody o ext).2 := by
  unfold fullRun commandRun
  rcases h : runBody o ext with ⟨r, s⟩
  cases r with
  | error e => simp
  | ok u => simp

/-- Removing the work directory does not change which generated
temporary directory is on record. -/
theorem rmworkdir_generatedTmp (o : Opts) (s : RunState) :
    (rmworkdir o s).generatedTmp = s.generatedTmp := by
  obtain ⟨wf, gt, dm, rd, ins, ep⟩ := s
  cases wf with
  | none => rfl
  | some w => simp only [rmworkdir]; split <;> rfl

/-- When `self.workdir` is set, no `--workdir` was supplied and
`--skip-clean` was not supplied, `_rmworkdir` removes exactly the
recorded work directory. -/
theorem rmworkdir_removes (o : Opts) (s : RunState) (w : String)
    (hwf : s.workdirField = some w) (hw : o.workdir = none)
    (hsc : o.skip_clean = false) :
    (rmworkdir o s).removedDirs = s.removedDirs ++ [w] := by
  obtain ⟨wf, gt, dm, rd, ins, ep⟩ := s
  cases hwf
  simp [rmworkdir, hw, hsc]

/-- With a caller-supplied `--workdir`, `_rmworkdir` removes nothing. -/
theorem rmworkdir_keeps (o : Opts) (s : RunState) (d : String)
    (hd : o.workdir = some d) :
    (rmworkdir o s).removedDirs = s.removedDirs := by
  obtain ⟨wf, gt, dm, rd, ins, ep⟩ := s
  cases wf with
  | none => rfl
  | some w => simp [rmworkdir, hd]

/-- The body of a run never removes a directory itself — cleanup is
only ever performed by `_rmworkdir` afterwards. -/
theorem runBody_removedDirs (o : Opts) (ext : Ext) :
    (runBody o ext).2.removedDirs = [] := by
  unfold runBody
  split
  · rfl
  · split
    · exact (afterBuild_fields _ _ _).2.2
    · split
      · rfl
      · exact (afterBuild_fields _ _ _).2.2

/-- For a run whose request resolved to at least one candidate, the
body records the effective work directory in `self.workdir`, and
records a generated temporary directory exactly when no `--workdir` was
supplied. -/
theorem runBody_start_fields (o : Opts) (ext : Ext)
    (h : ext.resolved.isEmpty = false) :
    (runBody o ext).2.workdirField = some (workdirOf o ext)
    ∧ (runBody o ext).2.generatedTmp
        = (if o.workdir = none then some ext.tmpName else none) := by
  unfold runBody
  simp only [h, Bool.false_eq_true, if_false]
  split
  · exact ⟨(afterBuild_fields _ _ _).1, (afterBuild_fields _ _ _).2.1⟩
  · split
    · exact ⟨rfl, rfl⟩
    · exact ⟨(afterBuild_fields _ _ _).1, (afterBuild_fields _ _ _).2.1⟩

/-- A request resolving to zero candidates makes the body fail at once
with the untouched initial state. -/
theorem runBody_empty (o : Opts) (ext : Ext)
    (h : ext.resolved.isEmpty = true) :
    runBody o ext = (.error (.dnfError "no package matched"), initState) := by
  unfold runBody
  simp [h]

/-- C6: a run that allocated a generated temporary work directory (no
`--workdir` supplied, request resolved) removes exactly that directory
by the end of the run — on the success path via `run_transaction` and
on every failure path via the wrapper in `run` — unless `--skip-clean`
was supplied; and a run given `--workdir` never removes any directory
at all. -/
theorem C6_cleanup :
    ∀ (o : Opts) (ext : Ext),
      (o.workdir = none → o.skip_clean = false →
        ext.resolved.isEmpty = false →
        (fullRun o ext).2.generatedTmp = some ext.tmpName
        ∧ (fullRun o ext).2.removedDirs = [ext.tmpName])
      ∧ ∀ d : String, o.workdir = some d →
          (fullRun o ext).2.removedDirs = [] := by
  intro o ext
  constructor
  · intro hw hsc hre
    have hstart := runBody_start_fields o ext hre
    constructor
    · rw [fullRun_snd, rmworkdir_generatedTmp, hstart.2, if_pos hw]
    · rw [fullRun_snd,
        rmworkdir_removes o _ (workdirOf o ext) hstart.1 hw hsc,
        runBody_removedDirs]
      simp [workdirOf, hw]
  · intro d hd
    rw [fullRun_snd, rmworkdir_keeps o _ d hd, runBody_removedDirs]

/-- Witness for C6: a generated-workdir run whose temporary directory
is removed at the end, and the caller-supplied-workdir run of the C2
input, in which nothing is ever removed. -/
theorem C6_cleanup_witness :
    ((fullRun c6opts c6ext).2.generatedTmp = some "/tmp/dnf-emerge-abc"
     ∧ (fullRun c6opts c6ext).2.removedDirs = ["/tmp/dnf-emerge-abc"])
    ∧ (fullRun c2opts c2ext).2.removedDirs = [] :=
  ⟨(C6_cleanup c6opts c6ext).1 rfl rfl rfl,
   (C6_cleanup c2opts c2ext).2 "/work" rfl⟩

/-- C9: a request whose entire batch resolves to zero candidates fails
with the no-match error, and the run performs no filesystem work at
all: the final state is the initial one — no work directory allocated,
no directory created, none removed. -/
theorem C9_no_match :
    ∀ (o : Opts) (ext : Ext), ext.resolved = [] →
      (fullRun o ext).1 = Except.error (Exc.dnfError "no package matched")
      ∧ (fullRun o ext).2 = initState := by
  intro o ext h
  have he : ext.resolved.isEmpty = true := by rw [h]; rfl
  have hb := runBody_empty o ext he
  have hfull : fullRun o ext
      = (Except.error (Exc.dnfError "no package matched"), initState) := by
    unfold fullRun commandRun
    rw [hb]
    rfl
  exact ⟨by rw [hfull], by rw [hfull]⟩

/-- Witness for C9: the concrete empty-resolution run. -/
theorem C9_no_match_witness :
    (fullRun c9opts c9ext).1 = Except.error (Exc.dnfError "no package matched")
    ∧ (fullRun c9opts c9ext).2 = initState :=
  C9_no_match c9opts c9ext rfl

/-- C2 (code bug): in the concrete run `c2opts`/`c2ext` the installer
accepts one matched artifact and rejects the other, so `err_pkgs` is
non-empty — and the run then fails with Python `NameError` on the free
name `strict` (emerge.py line 125), not with
`PackagesNotAvailableError`; the plugin offers no strict configuration
at all, so every run with a rejected artifact fails this way.  The
accepted artifact was already handed to `package_install` (it is in the
installed list) before the error. -/
theorem C2_strict_nameError :
    (fullRun c2opts c2ext).1 = Except.error (Exc.nameError "strict")
    ∧ (fullRun c2opts c2ext).2.installed = [c2path1]
    ∧ (fullRun c2opts c2ext).2.errPkgs = [c2path2] :=
  ⟨rfl, rfl, rfl⟩

end Emerge
